import Mathlib

set_option maxRecDepth 100000

/-!
Verification of the interview-practice application (`src/app.py`).

The file shallowly embeds the logic the claims are about:
* the four-label evaluation-response parser of `evaluate_with_gpt`,
* the demo-mode feedback generator `get_demo_feedback`,
* the transcription gateway `transcribe_audio` with its demo fallback
  `get_question_demo_transcript`,
* the per-session progress store and its operations
  (`clear_question_data`, `reset_all_progress`, the answer / evaluation
  writes of `show_practice`),
* the report builder `generate_pdf` (its emitted text cells).

External calls (OpenAI chat / whisper) are modelled as explicit inputs:
an `Except String String` carrying either the service response text or
the raised exception message; `random.randint` and `random.choice` are
modelled by an explicit oracle argument.
-/

namespace AIInterview

/-! ### Python string primitives -/

/-- Python `str.isspace` characters (the ASCII ones used by `str.strip`). -/
def pyIsSpace (c : Char) : Bool :=
  c = ' ' || c = '\t' || c = '\n' || c = '\x0d' || c = '\x0b' || c = '\x0c'

/-- Python `str.strip()` on a character list: drop whitespace at both ends. -/
def pyStripList (l : List Char) : List Char :=
  ((l.dropWhile pyIsSpace).reverse.dropWhile pyIsSpace).reverse

/-- Python `str.strip()`. -/
def pyStrip (s : String) : String := ⟨pyStripList s.data⟩

/-- Python `str.startswith(p)`. -/
def pyStartsWith (s p : String) : Bool := p.data.isPrefixOf s.data

/-- Fuelled worker for `pyReplace`: delete every occurrence of `pat`
    (assumed non-empty) in the character list. -/
def replaceAllAux (pat : List Char) : Nat → List Char → List Char
  | _, [] => []
  | 0, l => l
  | fuel + 1, c :: rest =>
    if pat.isPrefixOf (c :: rest) then
      replaceAllAux pat fuel (rest.drop (pat.length - 1))
    else
      c :: replaceAllAux pat fuel rest

/-- Python `s.replace(pat, '')`: every occurrence of `pat` is deleted. -/
def pyReplace (s pat : String) : String :=
  ⟨replaceAllAux pat.data s.data.length s.data⟩

/-- Decimal digit value, if `c` is an ASCII digit. -/
def pyDigit? (c : Char) : Option Nat :=
  if '0' ≤ c && c ≤ '9' then some (c.toNat - 48) else none

/-- Python `int()` digit tail: digits, with single underscores allowed
    between digits. `acc` is the value read so far. -/
def pyDigitsCore : List Char → Nat → Option Nat
  | [], acc => some acc
  | '_' :: c :: rest, acc =>
    match pyDigit? c with
    | some d => pyDigitsCore rest (acc * 10 + d)
    | none => none
  | ['_'], _ => none
  | c :: rest, acc =>
    match pyDigit? c with
    | some d => pyDigitsCore rest (acc * 10 + d)
    | none => none

/-- Python `int()` digit run: must start with a digit. -/
def pyDigitsStart : List Char → Option Nat
  | [] => none
  | c :: rest =>
    match pyDigit? c with
    | some d => pyDigitsCore rest d
    | none => none

/-- Python `int(s)` on a string: surrounding whitespace, an optional
    sign, then a digit run; `none` when the call would raise `ValueError`. -/
def pyInt (s : String) : Option Int :=
  match pyStripList s.data with
  | '+' :: rest => (pyDigitsStart rest).map Int.ofNat
  | '-' :: rest => (pyDigitsStart rest).map (fun n => -(n : Int))
  | rest => (pyDigitsStart rest).map Int.ofNat

/-- Python `s[:n]` character slice. -/
def pySlice (n : Nat) (s : String) : String := ⟨s.data.take n⟩

/-- Worker for `pySplitChar`: `acc` holds the current piece reversed. -/
def splitCharAux (sep : Char) : List Char → List Char → List (List Char)
  | [], acc => [acc.reverse]
  | c :: rest, acc =>
    if c = sep then acc.reverse :: splitCharAux sep rest []
    else splitCharAux sep rest (c :: acc)

/-- Python `s.split(sep)` for a one-character separator: split at every
    occurrence, keeping empty pieces. -/
def pySplitChar (sep : Char) (s : String) : List String :=
  (splitCharAux sep s.data []).map (fun l => ⟨l⟩)

/-! ### The evaluation result record

`evaluate_with_gpt` and `get_demo_feedback` both return a dict
`{score, strengths, improvements, feedback}`. -/

structure EvalFeedback where
  score : Int
  strengths : List String
  improvements : List String
  feedback : String
deriving DecidableEq

/-- `[s.strip() for s in t.split(',') if s.strip()]`. -/
def splitClean (t : String) : List String :=
  ((pySplitChar ',' t).map pyStrip).filter (fun s => s ≠ "")

/-- One iteration of the label-line loop in `evaluate_with_gpt`
    (src/app.py lines 554-571). -/
def parseEvalLine (r : EvalFeedback) (rawLine : String) : EvalFeedback :=
  let line := pyStrip rawLine
  if pyStartsWith line "SCORE:" then
    match pyInt (pyStrip (pyReplace line "SCORE:")) with
    | some n => { r with score := n }
    | none => { r with score := 50 }
  else if pyStartsWith line "STRENGTHS:" then
    { r with strengths := splitClean (pyStrip (pyReplace line "STRENGTHS:")) }
  else if pyStartsWith line "IMPROVEMENTS:" then
    { r with improvements := splitClean (pyStrip (pyReplace line "IMPROVEMENTS:")) }
  else if pyStartsWith line "FEEDBACK:" then
    { r with feedback := pyStrip (pyReplace line "FEEDBACK:") }
  else r

def defaultStrengths : List String := ["Clear communication", "Good attempt"]

def defaultImprovements : List String := ["Add more technical details", "Be more specific"]

def defaultFeedback : String :=
  "Good effort. Consider providing more specific technical details and examples to improve your answer."

/-- The parsing stage of `evaluate_with_gpt` (src/app.py lines 545-580):
    start from the defaults dict, fold the label-line loop over the
    newline-split response text, then substitute the fixed defaults for
    any field that parsed empty. -/
def parseEvaluationResponse (text : String) : EvalFeedback :=
  let r0 : EvalFeedback := { score := 50, strengths := [], improvements := [], feedback := "" }
  let r := (pySplitChar '\n' text).foldl parseEvalLine r0
  { r with
    strengths := if r.strengths = [] then defaultStrengths else r.strengths
    improvements := if r.improvements = [] then defaultImprovements else r.improvements
    feedback := if r.feedback = "" then defaultFeedback else r.feedback }

/-! ### The question bank (src/app.py lines 102-224) -/

structure Question where
  id : Nat
  category : String
  question : String
  keywords : List String
  ideal_length : String
  difficulty : String
  demo_transcripts : List String
deriving DecidableEq

def QUESTIONS : List Question := [
  { id := 1, category := "Data Structures",
    question := "Explain the difference between an array and a linked list.",
    keywords := ["array", "linked list", "memory allocation", "access time", "insertion", "deletion"],
    ideal_length := "250-500 words", difficulty := "Medium",
    demo_transcripts := [
      "Arrays and linked lists are both linear data structures but differ significantly in memory allocation. Arrays use contiguous memory blocks, allowing O(1) access time but making insertions/deletions expensive at O(n). Linked lists use non-contiguous memory with pointers, providing O(1) insertions/deletions but O(n) access time. Arrays have fixed size while linked lists are dynamic.",
      "The key difference lies in memory organization. Arrays allocate contiguous memory, making cache utilization efficient but resizing costly. Linked lists use scattered memory with nodes containing data and next pointers, enabling efficient insertions but poor cache locality. Arrays support random access; linked lists require sequential traversal."] },
  { id := 2, category := "Algorithms",
    question := "What is the time complexity of binary search and how does it work?",
    keywords := ["binary search", "time complexity", "O(log n)", "sorted array", "divide and conquer"],
    ideal_length := "100-200 words", difficulty := "Easy",
    demo_transcripts := [
      "Binary search has O(log n) time complexity. It works by repeatedly dividing a sorted array in half. You start with the middle element - if it matches the target, you're done. If the target is smaller, search the left half; if larger, search the right half. Continue until found or the search space is empty. It requires the array to be sorted.",
      "Binary search operates in O(log n) time. The algorithm compares the target value to the middle element of a sorted array. Based on comparison, it eliminates half of the remaining elements. This divide-and-conquer approach dramatically reduces search time compared to linear search's O(n)."] },
  { id := 3, category := "System Design",
    question := "How would you design a URL shortening service like bit.ly?",
    keywords := ["hash function", "database", "scalability", "cache", "redirect", "unique ID"],
    ideal_length := "300-500 words", difficulty := "Hard",
    demo_transcripts := [
      "A URL shortener needs several components: a unique ID generator using hash functions like Base62, a database to map short codes to original URLs, a caching layer like Redis for frequent URLs, and a redirect service. The system must handle high traffic, ensure collision-free hashing, and provide analytics. Considerations include scalability, cache invalidation, and monitoring.",
      "Key components include: 1) Encoding service that converts long URLs to short codes using hash algorithms, 2) Database storage for mappings, 3) Cache for popular URLs, 4) Redirect service with 301/302 responses, 5) Analytics tracking. Design considerations: load balancing, database sharding, CDN usage, and rate limiting."] },
  { id := 4, category := "Algorithms",
    question := "Explain how a hash table works and its time complexity.",
    keywords := ["hash function", "collision", "bucket", "load factor", "O(1)", "chaining"],
    ideal_length := "150-300 words", difficulty := "Medium",
    demo_transcripts := [
      "Hash tables map keys to values using a hash function that converts keys to array indices. They offer average O(1) time for insert, delete, and search operations. Collisions occur when different keys hash to the same index, resolved via chaining (linked lists) or open addressing. Load factor triggers resizing to maintain efficiency.",
      "A hash table uses a hash function to compute an index into an array of buckets. Ideally, this provides O(1) average-case complexity. Collision resolution methods include separate chaining and open addressing. Performance degrades with high load factor, requiring rehashing. Good hash functions distribute keys uniformly."] },
  { id := 5, category := "Data Structures",
    question := "What are the differences between a stack and a queue?",
    keywords := ["LIFO", "FIFO", "operations", "use cases", "implementation"],
    ideal_length := "100-200 words", difficulty := "Easy",
    demo_transcripts := [
      "Stacks follow LIFO (Last-In-First-Out) with push/pop operations, used for function calls, undo operations, and parsing. Queues follow FIFO (First-In-First-Out) with enqueue/dequeue operations, used for task scheduling, BFS, and messaging systems. Both can be implemented using arrays or linked lists with different access patterns.",
      "Key difference: access order. Stack is LIFO - last element added is first removed. Queue is FIFO - first element added is first removed. Common stack operations: push, pop, peek. Queue operations: enqueue, dequeue, front. Stacks for recursion/backtracking, queues for breadth-first processing."] },
  { id := 6, category := "System Design",
    question := "Describe how you would design a simple chat application.",
    keywords := ["real-time", "websockets", "database", "scalability", "message queue", "authentication"],
    ideal_length := "250-400 words", difficulty := "Hard",
    demo_transcripts := [
      "A chat app requires: 1) WebSocket connections for real-time communication, 2) Message broker for distribution, 3) Database for message persistence, 4) Authentication service, 5) Notification service for offline users. Design considerations: connection management, message ordering, read receipts, typing indicators, and media handling.",
      "Core components include: client-server WebSocket connections, message queue (Kafka/RabbitMQ) for decoupling, database (SQL for users, NoSQL for messages), caching for active sessions, and push notification service. Must handle concurrent connections, message delivery guarantees, and presence tracking."] },
  { id := 7, category := "Behavioral",
    question := "Tell me about a challenging project you worked on and how you overcame obstacles.",
    keywords := ["challenge", "solution", "teamwork", "learning", "results"],
    ideal_length := "200-350 words", difficulty := "Medium",
    demo_transcripts := [
      "I worked on a legacy system migration with tight deadlines. Challenges included undocumented APIs and team knowledge gaps. I overcame this by creating detailed documentation, pairing with senior engineers, and implementing incremental migration with feature flags. The project completed on time with zero downtime.",
      "The most challenging project involved optimizing database queries that were causing performance issues. I systematically analyzed query patterns, implementing indexing strategies, introduced caching, and refactored inefficient joins. Through careful monitoring and A/B testing, we achieved 70% performance improvement."] },
  { id := 8, category := "Algorithms",
    question := "What is dynamic programming and when would you use it?",
    keywords := ["memoization", "optimal substructure", "overlapping subproblems", "Fibonacci", "examples"],
    ideal_length := "150-250 words", difficulty := "Medium",
    demo_transcripts := [
      "Dynamic programming solves complex problems by breaking them into overlapping subproblems and storing solutions to avoid recomputation. It applies when problems have optimal substructure and overlapping subproblems. Examples: Fibonacci sequence, knapsack problem, shortest path algorithms. Techniques include memoization (top-down) and tabulation (bottom-up).",
      "DP optimizes recursive solutions by caching intermediate results. Use it for problems where the same subproblems recur, like calculating Fibonacci numbers or finding the longest common subsequence. The key insight is trading space for time by storing computed results in a table or dictionary."] },
  { id := 9, category := "Data Structures",
    question := "Compare and contrast B-trees and binary search trees.",
    keywords := ["balanced", "height", "disk access", "database indexing", "nodes", "children"],
    ideal_length := "150-250 words", difficulty := "Hard",
    demo_transcripts := [
      "B-trees are balanced m-way trees optimized for disk access, with nodes containing multiple keys and children. Binary search trees are binary trees with at most two children per node. B-trees minimize disk I/O by having larger node sizes matching disk blocks, while BSTs are memory-optimized. B-trees auto-balance, BSTs may become unbalanced.",
      "Key differences: B-trees have multiple keys per node and maintain balance automatically, making them ideal for databases and file systems. BSTs have one key per node and can degrade to O(n) if unbalanced. B-trees have lower height, reducing disk accesses for large datasets stored externally."] },
  { id := 10, category := "Behavioral",
    question := "How do you handle conflicts when working in a team?",
    keywords := ["communication", "compromise", "perspective", "resolution", "professionalism"],
    ideal_length := "150-250 words", difficulty := "Medium",
    demo_transcripts := [
      "I handle conflicts through open communication, focusing on issues not people. First, I listen to understand all perspectives. Then, I facilitate discussion to find common ground, proposing data-driven solutions. If needed, I escalate to a manager. The goal is constructive resolution that strengthens the team, not winning arguments.",
      "My approach: 1) Address issues early before escalation, 2) Focus on facts and project goals, 3) Seek compromise through brainstorming alternatives, 4) Document agreements, 5) Follow up to ensure resolution. I believe diverse perspectives strengthen outcomes when managed constructively."] }
]

/-! ### Demo-mode feedback (src/app.py lines 586-614)

`random.randint(a, b)` is modelled by an oracle `randint : Nat → Nat → Nat`;
a faithful oracle returns a value in the inclusive range `[a, b]`. -/

/-- A `randint` oracle behaving like `random.randint`: inclusive bounds. -/
def RandintSpec (randint : Nat → Nat → Nat) : Prop :=
  ∀ a b : Nat, a ≤ b → a ≤ randint a b ∧ randint a b ≤ b

/-- The category-keyed feedback text of `get_demo_feedback`. -/
def demoFeedbackText (category : String) : String :=
  if category = "Data Structures" then
    "Your understanding of data structures is basic. To improve, provide more specific examples and discuss time/space complexities."
  else if category = "Algorithms" then
    "You explained the concept but need more detail. Add complexity analysis and implementation details."
  else if category = "System Design" then
    "Good high-level thinking. Add more specific components, technologies, and scalability considerations."
  else if category = "Behavioral" then
    "Good personal example. Use the STAR method more clearly and add specific outcomes/metrics."
  else
    "Good attempt. Add more technical details and real-world applications."

/-- `get_demo_feedback(question)`. -/
def get_demo_feedback (randint : Nat → Nat → Nat) (q : Question) : EvalFeedback :=
  let base_score : Nat :=
    if q.difficulty = "Easy" then randint 70 90
    else if q.difficulty = "Medium" then randint 60 80
    else randint 50 70
  { score := base_score,
    strengths := ["Clear explanation", "Good structure"],
    improvements := ["Add more examples", "Be more concise"],
    feedback := demoFeedbackText q.category }

/-! ### Live evaluation (src/app.py lines 495-584)

The OpenAI chat call is modelled by `live : Except String String`: `.ok text`
is the response text of the completion, `.error e` an exception whose
`str(e)` is `e`. The prompt construction has no effect on the returned
value and is not modelled. -/

/-- `evaluate_with_gpt(question, answer)`. The `answer` argument is kept
    because the source function takes it (it only feeds the prompt). -/
def evaluate_with_gpt (apiConfigured : Bool) (live : Except String String)
    (randint : Nat → Nat → Nat) (q : Question) (_answer : String) : EvalFeedback :=
  if apiConfigured = false then get_demo_feedback randint q
  else
    match live with
    | Except.ok response_text => parseEvaluationResponse response_text
    | Except.error _ => get_demo_feedback randint q

/-- The presentation-layer gate of `show_practice` (src/app.py line 766):
    the evaluation UI (and the enabled Evaluate button) is shown only when
    `final_answer and final_answer.strip()` is truthy. -/
def evaluationEnabled (final_answer : String) : Bool :=
  final_answer ≠ "" && pyStrip final_answer ≠ ""

/-! ### Transcription gateway (src/app.py lines 447-493)

`random.choice(l)` is modelled by an index oracle `r : Nat` picking
`l[r % len(l)]`. -/

/-- `random.choice` with an explicit pick index. -/
def randomChoice (r : Nat) (l : List String) : String :=
  l.getD (r % l.length) ""

/-- The category-keyed generic demo sentence of
    `get_question_demo_transcript`. -/
def demoTranscriptText (category : String) : String :=
  if category = "Data Structures" then
    "Data structures organize and store data efficiently. Different structures optimize for different operations like access, insertion, or deletion."
  else if category = "Algorithms" then
    "Algorithms are step-by-step procedures for solving problems. Time and space complexity analysis helps compare algorithm efficiency."
  else if category = "System Design" then
    "System design involves creating scalable, reliable architectures. Key considerations include load balancing, caching, database choice, and fault tolerance."
  else if category = "Behavioral" then
    "Behavioral questions assess soft skills and experience. Use the STAR method (Situation, Task, Action, Result) to structure responses."
  else
    -- a matched question with an unknown category falls through the loop
    -- to the final return (question ids are unique in QUESTIONS)
    "This is a demo transcript for a technical interview question."

/-- `get_question_demo_transcript(question_id)`: first question with a
    matching id; its demo transcripts if non-empty, else the category
    sentence; the generic sentence when no question matches. -/
def get_question_demo_transcript (r : Nat) (question_id : Nat) : String :=
  match QUESTIONS.find? (fun q => q.id = question_id) with
  | some q =>
    if q.demo_transcripts ≠ [] then randomChoice r q.demo_transcripts
    else demoTranscriptText q.category
  | none => "This is a demo transcript for a technical interview question."

/-- Result of `transcribe_audio`: the returned text, and the diagnostic
    surfaced through `st.error` (if any). -/
structure TranscribeResult where
  text : String
  diagnostic : Option String
deriving DecidableEq

/-- Python truthiness of the `question_id=None` parameter. -/
def qidTruthy : Option Nat → Bool
  | some n => n ≠ 0
  | none => false

/-- `transcribe_audio(audio_data, question_id)`. The whisper round-trip
    (tempfile + API call) is modelled by `live : Except String String`:
    `.ok t` is `transcript.text`, `.error e` any exception raised inside
    the `try` block with message `e`. -/
def transcribe_audio (apiConfigured : Bool) (live : Except String String)
    (r : Nat) (question_id : Option Nat) : TranscribeResult :=
  if apiConfigured = false then
    if qidTruthy question_id then
      { text := get_question_demo_transcript r (question_id.getD 0), diagnostic := none }
    else
      { text := "API not configured. Please add OpenAI API key to enable transcription.",
        diagnostic := none }
  else
    match live with
    | Except.ok t => { text := t, diagnostic := none }
    | Except.error e =>
      let diag := "Transcription error: " ++ pySlice 100 e
      if qidTruthy question_id then
        { text := get_question_demo_transcript r (question_id.getD 0), diagnostic := some diag }
      else
        { text := "Error in transcription. Please try again.", diagnostic := some diag }

/-! ### Python dicts as insertion-ordered association lists

`st.session_state.progress` holds Python dicts keyed by the question id
string. A dict is modelled as an association list with unique keys:
assignment overwrites in place or appends, `del` removes, `in` tests
membership. -/

/-- `d[k] = v`: overwrite in place if present, else append at the end. -/
def dinsert {α : Type} (k : String) (v : α) : List (String × α) → List (String × α)
  | [] => [(k, v)]
  | p :: rest => if p.1 = k then (k, v) :: rest else p :: dinsert k v rest

/-- `del d[k]` (for unique-key dicts, dropping every pair with key `k`). -/
def ddel {α : Type} (k : String) : List (String × α) → List (String × α)
  | [] => []
  | p :: rest => if p.1 = k then ddel k rest else p :: ddel k rest

/-- `k in d`. -/
def dmem {α : Type} (k : String) : List (String × α) → Bool
  | [] => false
  | p :: rest => p.1 = k || dmem k rest

/-- `d.get(k)` / `d[k]` as an option. -/
def dlookup {α : Type} (k : String) : List (String × α) → Option α
  | [] => none
  | p :: rest => if p.1 = k then some p.2 else dlookup k rest

/-! ### The progress store (src/app.py lines 88-95) -/

/-- The per-question evaluation detail stored by the Evaluate button
    (src/app.py lines 790-794). -/
structure EvalDetail where
  overall_score : Int
  word_count : Nat
  feedback : EvalFeedback
deriving DecidableEq

/-- `st.session_state.progress`. -/
structure Progress where
  completed : List String
  scores : List (String × Int)
  answers : List (String × String)
  transcripts : List (String × String)
  evaluations : List (String × EvalDetail)
deriving DecidableEq

/-- The empty progress store created at session start (src/app.py
    lines 88-95) and by `reset_all_progress` (lines 268-276). -/
def initialProgress : Progress :=
  { completed := [], scores := [], answers := [], transcripts := [], evaluations := [] }

/-- `progress['answers'][qid] = text` — the only progress write of the
    transcription flow (src/app.py lines 700, 708, 740) and the first
    write of the Evaluate flow (line 776). -/
def recordAnswer (qid text : String) (p : Progress) : Progress :=
  { p with answers := dinsert qid text p.answers }

/-- The progress writes of the Evaluate button (src/app.py lines
    784-797): append to `completed` if absent, set the score, store the
    evaluation detail. -/
def recordEvaluation (qid : String) (score : Int) (detail : EvalDetail) (p : Progress) : Progress :=
  { p with
    completed := if p.completed.contains qid then p.completed else p.completed ++ [qid]
    scores := dinsert qid score p.scores
    evaluations := dinsert qid detail p.evaluations }

/-- The evaluation-restore fragment at the top of the evaluation section
    of `show_practice` (src/app.py lines 757-763): if the progress store
    has no evaluation for `qid` but the session cache (`cached`, the
    value under key `evaluation_{qid}`) has one, copy it back into
    `progress['evaluations']`. Scores and the completed list are not
    touched. -/
def restoreEvaluation (qid : String) (cached : Option EvalDetail) (p : Progress) : Progress :=
  if dmem qid p.evaluations then p
  else
    match cached with
    | some d => { p with evaluations := dinsert qid d p.evaluations }
    | none => p

/-- The progress part of `clear_question_data` (src/app.py lines
    251-264): delete `qid` from all five progress fields. -/
def clearQuestion (qid : String) (p : Progress) : Progress :=
  { completed := p.completed.filter (fun q => q ≠ qid)
    scores := ddel qid p.scores
    answers := ddel qid p.answers
    transcripts := ddel qid p.transcripts
    evaluations := ddel qid p.evaluations }

/-- The progress operations of the presentation layer, for reachability. -/
inductive Op where
  | recordAnswer (qid text : String)
  | recordEvaluation (qid : String) (score : Int) (detail : EvalDetail)
  | restoreEvaluation (qid : String) (cached : Option EvalDetail)
  | clearQuestion (qid : String)
  | resetAll

def applyOp (p : Progress) : Op → Progress
  | Op.recordAnswer qid text => recordAnswer qid text p
  | Op.recordEvaluation qid score detail => recordEvaluation qid score detail p
  | Op.restoreEvaluation qid cached => restoreEvaluation qid cached p
  | Op.clearQuestion qid => clearQuestion qid p
  | Op.resetAll => initialProgress

/-- The progress store after a sequence of operations, starting from the
    empty store of session start. -/
def runOps (ops : List Op) : Progress := ops.foldl applyOp initialProgress

/-! ### Session-state keys cleared by `clear_question_data`
(src/app.py lines 229-249) -/

/-- A value held in `st.session_state` under a per-question key. -/
inductive SVal where
  | str (s : String)
  | nat (n : Nat)
  | bool (b : Bool)
  | audio (bytes : List Nat)
  | evalDetail (e : EvalDetail)
  | noneV
deriving DecidableEq

/-- The ten per-question key prefixes tested by `clear_question_data`
    (src/app.py lines 232-241). -/
def clearPrefixes (qid : String) : List String :=
  ["audio_transcript_" ++ qid, "text_answer_" ++ qid, "last_audio_" ++ qid,
   "audio_input_" ++ qid, "audio_uploaded_" ++ qid, "audio_recorder_" ++ qid,
   "transcript_display_" ++ qid, "record_count_" ++ qid, "recording_active_" ++ qid,
   "audio_data_" ++ qid]

/-- Does a session-state key fall to `clear_question_data(qid)`? -/
def matchesClearPrefix (qid key : String) : Bool :=
  (clearPrefixes qid).any (fun p => pyStartsWith key p)

/-- The session-state part of `clear_question_data(qid)`: delete exactly
    the keys matching one of the ten prefixes. -/
def clearSessionKeys (qid : String) (ss : List (String × SVal)) : List (String × SVal) :=
  ss.filter (fun kv => !matchesClearPrefix qid kv.1)

/-- The evaluation-restore read of `show_practice` against the session
    cache (src/app.py lines 752-763): the value stored under
    `evaluation_{qid}` is always the evaluation-detail dict written at
    line 796, so the model reads it as such. -/
def restoreEvaluationOnRender (qid : String) (ss : List (String × SVal)) (p : Progress) : Progress :=
  if dmem qid p.evaluations then p
  else
    match dlookup ("evaluation_" ++ qid) ss with
    | some (SVal.evalDetail e) => { p with evaluations := dinsert qid e p.evaluations }
    | _ => p

/-! ### The report builder `generate_pdf` (src/app.py lines 1085-1155)

The builder is modelled as the ordered list of text cells it writes into
the PDF; fonts, margins and page breaks are presentation and carry no
information. `datetime.now()` enters as an explicit `now` string (the
formatted timestamp of line 1096). -/

/-- Placeholder question for the (unreached, in-range states) list
    lookup `QUESTIONS[int(qid)-1]`; Python would raise `IndexError` out
    of range. -/
def defaultQuestion : Question :=
  { id := 0, category := "", question := "", keywords := [],
    ideal_length := "", difficulty := "", demo_transcripts := [] }

/-- `int(qid)` on a stored question-id key. -/
def keyNum (s : String) : Int := (pyInt s).getD 0

/-- Python `max` over a non-empty int list (0 for the empty list, which
    the source guards against). -/
def pyMax : List Int → Int
  | [] => 0
  | x :: xs => xs.foldl max x

/-- Python `min` over a non-empty int list. -/
def pyMin : List Int → Int
  | [] => 0
  | x :: xs => xs.foldl min x

/-- Render a tenths value `t` as the decimal `t/10` with one fractional
    digit. -/
def formatTenths (t : Int) : String :=
  (if t < 0 then "-" else "") ++ toString (t.natAbs / 10) ++ "." ++ toString (t.natAbs % 10)

/-- Round-half-to-even of `10*sum/n`: a decimal model of the `%.1f`
    float formatting of `avg_score` (line 1121). -/
def avgTenths (sum : Int) (n : Nat) : Int :=
  let num := 10 * sum
  let den := (n : Int)
  let q := num.fdiv den
  let r := num - q * den
  if den < 2 * r then q + 1
  else if 2 * r < den then q
  else if q % 2 = 0 then q else q + 1

/-- `sorted(progress['answers'].keys(), key=int)`. -/
def sortedAnswerKeys (p : Progress) : List String :=
  (p.answers.map Prod.fst).insertionSort (fun a b => keyNum a ≤ keyNum b)

/-- The per-question block of the Question Details section
    (src/app.py lines 1132-1149). -/
def questionBlock (p : Progress) (qid : String) : List String :=
  let question := QUESTIONS.getD ((keyNum qid - 1).toNat) defaultQuestion
  let answer := (dlookup qid p.answers).getD ""
  ["Question " ++ qid ++ ": " ++ question.question,
   if p.completed.contains qid then
     "Score: " ++ toString ((dlookup qid p.scores).getD 0) ++ "% | Category: " ++
       question.category ++ " | Difficulty: " ++ question.difficulty
   else
     "Status: Recorded (Not evaluated) | Category: " ++ question.category,
   "Your Answer: " ++ (if 400 < answer.length then pySlice 400 answer ++ "..." else answer)]

/-- `generate_pdf()` as its ordered list of text cells. -/
def generate_pdf (apiConfigured : Bool) (now : String) (p : Progress) : List String :=
  ["Tech Interview Practice Report",
   "Generated: " ++ now,
   "Mode: " ++ (if apiConfigured then "Real AI Mode" else "Demo Mode"),
   "Progress Summary",
   "Total Questions: " ++ toString QUESTIONS.length,
   "Questions Attempted: " ++ toString p.answers.length,
   "Questions Evaluated: " ++ toString p.completed.length]
  ++ (if p.scores ≠ [] then
        ["Average Score: " ++
           formatTenths (avgTenths (p.scores.map Prod.snd).sum p.scores.length) ++ "%",
         "Highest Score: " ++ toString (pyMax (p.scores.map Prod.snd)) ++ "%",
         "Lowest Score: " ++ toString (pyMin (p.scores.map Prod.snd)) ++ "%"]
      else [])
  ++ ["Question Details"]
  ++ (sortedAnswerKeys p).flatMap (questionBlock p)
  ++ ["Generated by Tech Interview Practice Platform"]

/-! ### Derived observations used to state the claims -/

/-- The score contribution of one response line: `some n` when the
    stripped line starts with `SCORE:` and its value parses as an int,
    `none` when the line is missing the label or its value is
    non-numeric (the degraded cases of the claim). -/
def scoreOfLine (rawLine : String) : Option Int :=
  if pyStartsWith (pyStrip rawLine) "SCORE:" then
    pyInt (pyStrip (pyReplace (pyStrip rawLine) "SCORE:"))
  else none

/-- The fixed set of category feedback texts of `get_demo_feedback`
    (src/app.py lines 598-607). -/
def demoFeedbackTexts : List String :=
  ["Your understanding of data structures is basic. To improve, provide more specific examples and discuss time/space complexities.",
   "You explained the concept but need more detail. Add complexity analysis and implementation details.",
   "Good high-level thinking. Add more specific components, technologies, and scalability considerations.",
   "Good personal example. Use the STAR method more clearly and add specific outcomes/metrics.",
   "Good attempt. Add more technical details and real-world applications."]

/-- A concrete evaluation detail, for witnesses. -/
def evalDetailEx : EvalDetail :=
  { overall_score := 80, word_count := 5,
    feedback := { score := 80, strengths := ["Clear communication"],
                  improvements := ["Be more specific"], feedback := "Good effort." } }

/-! ### Dictionary lemmas -/

theorem dmem_dinsert_self {α : Type} (k : String) (v : α) (d : List (String × α)) :
    dmem k (dinsert k v d) = true := by
  induction d with
  | nil => simp [dinsert, dmem]
  | cons p rest ih =>
    by_cases h : p.1 = k
    · simp [dinsert, dmem, h]
    · simp [dinsert, dmem, h, ih]

theorem dmem_dinsert_of {α : Type} (k k' : String) (v : α) (d : List (String × α))
    (h : dmem k' d = true) : dmem k' (dinsert k v d) = true := by
  induction d with
  | nil => simp [dmem] at h
  | cons p rest ih =>
    by_cases hp : p.1 = k
    · simp [dmem, hp] at h
      rcases h with h | h
      · simp [dinsert, dmem, hp, h]
      · simp [dinsert, dmem, hp, h]
    · simp [dmem, hp] at h
      rcases h with h | h
      · rw [h] at hp
        simp [dinsert, dmem, h, hp]
      · simp [dinsert, dmem, hp, ih h]

theorem dlookup_dinsert_self {α : Type} (k : String) (v : α) (d : List (String × α)) :
    dlookup k (dinsert k v d) = some v := by
  induction d with
  | nil => simp [dinsert, dlookup]
  | cons p rest ih =>
    by_cases h : p.1 = k
    · simp [dinsert, dlookup, h]
    · simp [dinsert, dlookup, h, ih]

theorem dlookup_dinsert_ne {α : Type} (k k' : String) (v : α) (d : List (String × α))
    (h : k' ≠ k) : dlookup k' (dinsert k v d) = dlookup k' d := by
  have h' : ¬ (k = k') := fun e => h e.symm
  induction d with
  | nil => simp [dinsert, dlookup, h']
  | cons p rest ih =>
    by_cases hp : p.1 = k
    · simp [dinsert, dlookup, hp, h']
    · by_cases hk' : p.1 = k'
      · rw [hk'] at hp
        simp [dinsert, dlookup, hp, hk']
      · simp [dinsert, dlookup, hp, hk', ih]

theorem dmem_ddel_self {α : Type} (k : String) (d : List (String × α)) :
    dmem k (ddel k d) = false := by
  induction d with
  | nil => simp [ddel, dmem]
  | cons p rest ih =>
    by_cases h : p.1 = k
    · simp [ddel, h, ih]
    · simp [ddel, dmem, h, ih]

theorem dlookup_ddel_self {α : Type} (k : String) (d : List (String × α)) :
    dlookup k (ddel k d) = none := by
  induction d with
  | nil => simp [ddel, dlookup]
  | cons p rest ih =>
    by_cases h : p.1 = k
    · simp [ddel, h, ih]
    · simp [ddel, dlookup, h, ih]

theorem dmem_ddel_ne {α : Type} (k k' : String) (d : List (String × α))
    (h : k' ≠ k) : dmem k' (ddel k d) = dmem k' d := by
  induction d with
  | nil => simp [ddel]
  | cons p rest ih =>
    by_cases hp : p.1 = k
    · have hk : ¬ (k = k') := fun e => h e.symm
      simp [ddel, dmem, hp, hk, ih]
    · simp [ddel, dmem, hp, ih]

/-! ### C1 — parsing the evaluation response degrades independently -/

theorem foldl_parseEvalLine_score (lines : List String) (r : EvalFeedback)
    (h : ∀ l ∈ lines, scoreOfLine l = none) (hr : r.score = 50) :
    (lines.foldl parseEvalLine r).score = 50 := by
  induction lines generalizing r with
  | nil => simpa using hr
  | cons l ls ih =>
    have hl : scoreOfLine l = none := h l (List.mem_cons_self l ls)
    have hstep : (parseEvalLine r l).score = 50 := by
      by_cases hs : pyStartsWith (pyStrip l) "SCORE:"
      · rw [scoreOfLine, if_pos hs] at hl
        simp [parseEvalLine, hs, hl]
      · simp only [parseEvalLine]
        rw [if_neg hs]
        repeat' split
        all_goals simp [hr]
    exact ih (parseEvalLine r l) (fun x hx => h x (List.mem_cons_of_mem l hx)) hstep

theorem parse_strengths_ne_nil (text : String) :
    (parseEvaluationResponse text).strengths ≠ [] := by
  have key : ∀ (r : EvalFeedback),
      (if r.strengths = [] then defaultStrengths else r.strengths) ≠ [] := by
    intro r
    by_cases h : r.strengths = [] <;> simp [h, defaultStrengths]
  exact key _

theorem parse_improvements_ne_nil (text : String) :
    (parseEvaluationResponse text).improvements ≠ [] := by
  have key : ∀ (r : EvalFeedback),
      (if r.improvements = [] then defaultImprovements else r.improvements) ≠ [] := by
    intro r
    by_cases h : r.improvements = [] <;> simp [h, defaultImprovements]
  exact key _

theorem parse_score_default (text : String)
    (h : ∀ l ∈ pySplitChar '\n' text, scoreOfLine l = none) :
    (parseEvaluationResponse text).score = 50 := by
  have key : (((pySplitChar '\n' text).foldl parseEvalLine
      { score := 50, strengths := [], improvements := [], feedback := "" })
        : EvalFeedback).score = 50 :=
    foldl_parseEvalLine_score _ _ h rfl
  exact key

/-- C1: parsing the four labelled lines of any live-evaluation response
    text never fails (the parser is a total function) and each field
    degrades independently: when no line carries a numeric `SCORE:`
    value (the label is missing or its value is non-numeric) the score
    is the default 50, and the strengths and improvements lists of the
    result are never empty — empty parses are replaced by the fixed
    generic defaults. -/
theorem parse_response_degrades_independently (text : String) :
    ((∀ l ∈ pySplitChar '\n' text, scoreOfLine l = none) →
      (parseEvaluationResponse text).score = 50) ∧
    (parseEvaluationResponse text).strengths ≠ [] ∧
    (parseEvaluationResponse text).improvements ≠ [] :=
  ⟨parse_score_default text, parse_strengths_ne_nil text, parse_improvements_ne_nil text⟩

/-- C1 witness: a response with no `SCORE:` line parses to the default
    score 50 and non-empty default lists. -/
theorem parse_response_degrades_independently_witness :
    (parseEvaluationResponse "FEEDBACK: ok").score = 50 ∧
    (parseEvaluationResponse "FEEDBACK: ok").strengths ≠ [] ∧
    (parseEvaluationResponse "FEEDBACK: ok").improvements ≠ [] :=
  ⟨(parse_response_degrades_independently "FEEDBACK: ok").1 (by decide),
    (parse_response_degrades_independently "FEEDBACK: ok").2.1,
    (parse_response_degrades_independently "FEEDBACK: ok").2.2⟩

/-! ### C2 — demo-mode feedback -/

/-- C2: for every question, the demo evaluation score lies inside the
    difficulty range — Easy in [70,90], Medium in [60,80], any other
    difficulty (Hard included) in [50,70] — for any faithful
    `random.randint`; the strengths and improvements are the fixed
    generic lists, and the feedback text is a function of the category
    alone, drawn from the fixed five-element set. -/
theorem demo_feedback_score_in_difficulty_range (randint : Nat → Nat → Nat)
    (hr : RandintSpec randint) (q : Question) :
    (q.difficulty = "Easy" →
      70 ≤ (get_demo_feedback randint q).score ∧ (get_demo_feedback randint q).score ≤ 90) ∧
    (q.difficulty = "Medium" →
      60 ≤ (get_demo_feedback randint q).score ∧ (get_demo_feedback randint q).score ≤ 80) ∧
    (q.difficulty ≠ "Easy" → q.difficulty ≠ "Medium" →
      50 ≤ (get_demo_feedback randint q).score ∧ (get_demo_feedback randint q).score ≤ 70) ∧
    (get_demo_feedback randint q).strengths = ["Clear explanation", "Good structure"] ∧
    (get_demo_feedback randint q).improvements = ["Add more examples", "Be more concise"] ∧
    (get_demo_feedback randint q).feedback = demoFeedbackText q.category ∧
    (get_demo_feedback randint q).feedback ∈ demoFeedbackTexts := by
  have h1 := hr 70 90 (by decide)
  have h2 := hr 60 80 (by decide)
  have h3 := hr 50 70 (by decide)
  refine ⟨?_, ?_, ?_, ?_, ?_, ?_, ?_⟩
  · intro he
    simp only [get_demo_feedback, he]
    constructor <;> simp <;> omega
  · intro he
    by_cases h : q.difficulty = "Easy"
    · rw [h] at he; exact absurd he (by decide)
    · simp only [get_demo_feedback, he, h]
      constructor <;> simp <;> omega
  · intro he hm
    simp only [get_demo_feedback, he, hm]
    constructor <;> simp <;> omega
  · simp [get_demo_feedback]
  · simp [get_demo_feedback]
  · simp [get_demo_feedback]
  · simp only [get_demo_feedback]
    unfold demoFeedbackText demoFeedbackTexts
    repeat' split
    all_goals simp

/-- C2 witness: on the Easy question (id 2), a faithful lower-bound
    `randint` gives a score inside [70,90]. -/
theorem demo_feedback_score_in_difficulty_range_witness :
    70 ≤ (get_demo_feedback (fun a _ => a) (QUESTIONS.getD 1 defaultQuestion)).score ∧
    (get_demo_feedback (fun a _ => a) (QUESTIONS.getD 1 defaultQuestion)).score ≤ 90 :=
  (demo_feedback_score_in_difficulty_range (fun a _ => a) (fun _ _ h => ⟨Nat.le_refl _, h⟩)
    (QUESTIONS.getD 1 defaultQuestion)).1 (by decide)

/-! ### C3 — the score range contract -/

theorem demo_score_bounds (randint : Nat → Nat → Nat) (hr : RandintSpec randint)
    (q : Question) :
    50 ≤ (get_demo_feedback randint q).score ∧ (get_demo_feedback randint q).score ≤ 90 := by
  have h1 := hr 70 90 (by decide)
  have h2 := hr 60 80 (by decide)
  have h3 := hr 50 70 (by decide)
  simp only [get_demo_feedback]
  repeat' split
  all_goals constructor <;> simp <;> omega

/-- C3 counterexample: on the live path the parsed `SCORE:` value is
    stored unclamped, so a service response of `SCORE: 150` yields a
    result whose score is 150, outside [0,100]. -/
theorem live_score_unclamped_counterexample :
    (evaluate_with_gpt true (Except.ok "SCORE: 150") (fun a _ => a)
      (QUESTIONS.headD defaultQuestion) "answer").score = 150 ∧
    ¬ ((evaluate_with_gpt true (Except.ok "SCORE: 150") (fun a _ => a)
      (QUESTIONS.headD defaultQuestion) "answer").score ≤ 100) := by decide

/-- C3 as amended: on the demo path (no live service configured, or the
    live call throws) the score always lies in [0,100] (in fact in
    [50,90]); the live success path stores the parsed value unclamped
    and can leave the interval. -/
theorem demo_path_score_within_bounds (cfg : Bool) (live : Except String String)
    (randint : Nat → Nat → Nat) (hr : RandintSpec randint) (q : Question) (answer : String)
    (h : cfg = false ∨ ∃ e, live = Except.error e) :
    0 ≤ (evaluate_with_gpt cfg live randint q answer).score ∧
    (evaluate_with_gpt cfg live randint q answer).score ≤ 100 := by
  have hb := demo_score_bounds randint hr q
  rcases h with h | ⟨e, h⟩
  · subst h
    have hev : evaluate_with_gpt false live randint q answer = get_demo_feedback randint q := rfl
    rw [hev]
    omega
  · subst h
    cases cfg with
    | false =>
      have hev : evaluate_with_gpt false (Except.error e) randint q answer
          = get_demo_feedback randint q := rfl
      rw [hev]
      omega
    | true =>
      have hev : evaluate_with_gpt true (Except.error e) randint q answer
          = get_demo_feedback randint q := rfl
      rw [hev]
      omega

/-- C3 amended-claim witness: a demo-mode evaluation score lies in
    [0,100]. -/
theorem demo_path_score_within_bounds_witness :
    0 ≤ (evaluate_with_gpt false (Except.error "down") (fun a _ => a)
      (QUESTIONS.headD defaultQuestion) "x").score ∧
    (evaluate_with_gpt false (Except.error "down") (fun a _ => a)
      (QUESTIONS.headD defaultQuestion) "x").score ≤ 100 :=
  demo_path_score_within_bounds false (Except.error "down") (fun a _ => a)
    (fun _ _ h => ⟨Nat.le_refl _, h⟩) (QUESTIONS.headD defaultQuestion) "x" (Or.inl rfl)

/-! ### C4 — transcription failures are absorbed -/

theorem randomChoice_mem (r : Nat) (l : List String) (h : l ≠ []) :
    randomChoice r l ∈ l := by
  have hl : 0 < l.length := List.length_pos.mpr h
  have hm : r % l.length < l.length := Nat.mod_lt _ hl
  unfold randomChoice
  rw [List.getD_eq_getElem l "" hm]
  exact List.getElem_mem hm

/-- C4: when the live transcription call raises any exception,
    `transcribe_audio` absorbs it (the model is a total function: no
    exception propagates), surfaces the diagnostic truncated to 100
    characters, and returns one of the demo transcripts of the
    question whose id was passed. -/
theorem transcription_failure_absorbed (e : String) (r n : Nat) (q : Question)
    (hn : n ≠ 0) (hq : QUESTIONS.find? (fun q2 => q2.id = n) = some q)
    (hd : q.demo_transcripts ≠ []) :
    (transcribe_audio true (Except.error e) r (some n)).text ∈ q.demo_transcripts ∧
    (transcribe_audio true (Except.error e) r (some n)).diagnostic
      = some ("Transcription error: " ++ pySlice 100 e) ∧
    (pySlice 100 e).length ≤ 100 := by
  have htr : qidTruthy (some n) = true := by simp [qidTruthy, hn]
  refine ⟨?_, ?_, ?_⟩
  · simpa [transcribe_audio, htr, get_question_demo_transcript, hq, hd]
      using randomChoice_mem r q.demo_transcripts hd
  · simp [transcribe_audio, htr]
  · have hlen : (pySlice 100 e).length = (e.data.take 100).length := rfl
    rw [hlen, List.length_take]
    exact Nat.min_le_left _ _

/-- C4 witness: an exception on question 2 yields one of its two demo
    transcripts and the truncated diagnostic. -/
theorem transcription_failure_absorbed_witness :
    (transcribe_audio true (Except.error "boom") 0 (some 2)).text
      ∈ (QUESTIONS.getD 1 defaultQuestion).demo_transcripts ∧
    (transcribe_audio true (Except.error "boom") 0 (some 2)).diagnostic
      = some ("Transcription error: " ++ pySlice 100 "boom") ∧
    (pySlice 100 "boom").length ≤ 100 :=
  transcription_failure_absorbed "boom" 0 2 (QUESTIONS.getD 1 defaultQuestion)
    (by decide) (by decide) (by decide)

/-! ### C5 — blank answers -/

/-- C5 counterexample: invoked on a blank (empty) answer, the core
    `evaluate_with_gpt` does not reject the input — in demo mode it
    returns a full evaluation with a score and non-empty detail. -/
theorem blank_answer_still_scored_counterexample :
    pyStrip "" = "" ∧
    (evaluate_with_gpt false (Except.error "no service") (fun a _ => a)
      (QUESTIONS.headD defaultQuestion) "").score = 60 ∧
    (evaluate_with_gpt false (Except.error "no service") (fun a _ => a)
      (QUESTIONS.headD defaultQuestion) "").strengths
        = ["Clear explanation", "Good structure"] ∧
    (evaluate_with_gpt false (Except.error "no service") (fun a _ => a)
      (QUESTIONS.headD defaultQuestion) "").feedback ≠ "" := by decide

/-- C5 as amended: blank input is rejected only by the presentation
    layer — the evaluation section (and its enabled Evaluate button) is
    gated on `final_answer and final_answer.strip()`, which is falsy
    for every blank answer; the core itself scores blank input
    normally. -/
theorem blank_answer_gated_by_presentation (answer : String) (h : pyStrip answer = "") :
    evaluationEnabled answer = false := by
  simp [evaluationEnabled, h]

/-- C5 amended-claim witness: a whitespace-only answer leaves the
    evaluation gate closed. -/
theorem blank_answer_gated_by_presentation_witness : evaluationEnabled "   " = false :=
  blank_answer_gated_by_presentation "   " (by decide)

/-! ### C6 — completed implies score and evaluation detail -/

theorem inv_applyOp (p : Progress) (op : Op)
    (hp : ∀ k, k ∈ p.completed → dmem k p.scores = true ∧ dmem k p.evaluations = true) :
    ∀ k, k ∈ (applyOp p op).completed →
      dmem k (applyOp p op).scores = true ∧ dmem k (applyOp p op).evaluations = true := by
  intro k hk
  cases op with
  | recordAnswer qid text =>
    exact hp k hk
  | recordEvaluation qid score detail =>
    simp only [applyOp, recordEvaluation] at hk ⊢
    by_cases hc : p.completed.contains qid
    · rw [if_pos hc] at hk
      exact ⟨dmem_dinsert_of _ _ _ _ (hp k hk).1, dmem_dinsert_of _ _ _ _ (hp k hk).2⟩
    · rw [if_neg hc] at hk
      rcases List.mem_append.mp hk with hk | hk
      · exact ⟨dmem_dinsert_of _ _ _ _ (hp k hk).1, dmem_dinsert_of _ _ _ _ (hp k hk).2⟩
      · have hkq : k = qid := by simpa using hk
        subst hkq
        exact ⟨dmem_dinsert_self _ _ _, dmem_dinsert_self _ _ _⟩
  | restoreEvaluation qid cached =>
    simp only [applyOp, restoreEvaluation] at hk ⊢
    by_cases hm : dmem qid p.evaluations
    · rw [if_pos hm] at hk ⊢
      exact hp k hk
    · rw [if_neg hm] at hk ⊢
      cases cached with
      | some d => exact ⟨(hp k hk).1, dmem_dinsert_of _ _ _ _ (hp k hk).2⟩
      | none => exact hp k hk
  | clearQuestion qid =>
    simp only [applyOp, clearQuestion, List.mem_filter] at hk ⊢
    obtain ⟨hmem, hne⟩ := hk
    have hne' : k ≠ qid := by simpa using hne
    rw [dmem_ddel_ne qid k _ hne', dmem_ddel_ne qid k _ hne']
    exact hp k hmem
  | resetAll =>
    simp [applyOp, initialProgress] at hk

theorem runOps_inv (ops : List Op) :
    ∀ (p : Progress),
      (∀ k, k ∈ p.completed → dmem k p.scores = true ∧ dmem k p.evaluations = true) →
      ∀ k, k ∈ (ops.foldl applyOp p).completed →
        dmem k (ops.foldl applyOp p).scores = true ∧
        dmem k (ops.foldl applyOp p).evaluations = true := by
  induction ops with
  | nil => intro p hp; exact hp
  | cons op rest ih =>
    intro p hp
    exact ih (applyOp p op) (inv_applyOp p op hp)

/-- C6: in every progress state reachable from the empty session store
    by any sequence of recordAnswer, recordEvaluation,
    restoreEvaluation, clearQuestion and resetAll, every question id in
    the completed list has both a score entry and an evaluation-detail
    entry. -/
theorem completed_implies_score_and_evaluation (ops : List Op) (qid : String)
    (h : qid ∈ (runOps ops).completed) :
    dmem qid (runOps ops).scores = true ∧ dmem qid (runOps ops).evaluations = true :=
  runOps_inv ops initialProgress (by intro k hk; simp [initialProgress] at hk) qid h

/-- C6 witness: after recording and evaluating question 1, the invariant
    holds for it. -/
theorem completed_implies_score_and_evaluation_witness :
    dmem "1" (runOps [Op.recordAnswer "1" "my answer",
      Op.recordEvaluation "1" 80 evalDetailEx]).scores = true ∧
    dmem "1" (runOps [Op.recordAnswer "1" "my answer",
      Op.recordEvaluation "1" 80 evalDetailEx]).evaluations = true :=
  completed_implies_score_and_evaluation
    [Op.recordAnswer "1" "my answer", Op.recordEvaluation "1" 80 evalDetailEx] "1" (by decide)

/-! ### C7 — clearing a question removes every field -/

/-- C7: for every question id and progress state, `clearQuestion`
    removes the answer, transcript, score, evaluation detail and
    completed mark of that question, so a subsequent summary counts it
    neither among the attempted (answers) nor among the completed. -/
theorem clear_question_removes_all_fields (qid : String) (p : Progress) :
    dmem qid (clearQuestion qid p).answers = false ∧
    dlookup qid (clearQuestion qid p).answers = none ∧
    dlookup qid (clearQuestion qid p).transcripts = none ∧
    dlookup qid (clearQuestion qid p).scores = none ∧
    dlookup qid (clearQuestion qid p).evaluations = none ∧
    qid ∉ (clearQuestion qid p).completed := by
  refine ⟨?_, ?_, ?_, ?_, ?_, ?_⟩
  · exact dmem_ddel_self qid p.answers
  · exact dlookup_ddel_self qid p.answers
  · exact dlookup_ddel_self qid p.transcripts
  · exact dlookup_ddel_self qid p.scores
  · exact dlookup_ddel_self qid p.evaluations
  · simp [clearQuestion, List.mem_filter]

/-! ### C8 — recording an answer is frame-preserving -/

/-- C8: storing a new answer text for a question overwrites only that
    entry of the answers dict: the scores, evaluation details, completed
    list and transcripts are untouched, and every other key of the
    answers dict reads the same as before. -/
theorem record_answer_preserves_evaluation (qid text : String) (p : Progress)
    (k : String) (hk : k ≠ qid) :
    (recordAnswer qid text p).scores = p.scores ∧
    (recordAnswer qid text p).evaluations = p.evaluations ∧
    (recordAnswer qid text p).completed = p.completed ∧
    (recordAnswer qid text p).transcripts = p.transcripts ∧
    dlookup k (recordAnswer qid text p).answers = dlookup k p.answers ∧
    dlookup qid (recordAnswer qid text p).answers = some text :=
  ⟨rfl, rfl, rfl, rfl, dlookup_dinsert_ne qid k text p.answers hk,
    dlookup_dinsert_self qid text p.answers⟩

/-- C8 witness: re-recording an answer for an evaluated question leaves
    its score, detail and completed mark, and question 2, unchanged. -/
theorem record_answer_preserves_evaluation_witness :
    (recordAnswer "1" "new answer" (runOps [Op.recordAnswer "1" "old",
      Op.recordEvaluation "1" 80 evalDetailEx])).scores
      = (runOps [Op.recordAnswer "1" "old", Op.recordEvaluation "1" 80 evalDetailEx]).scores ∧
    (recordAnswer "1" "new answer" (runOps [Op.recordAnswer "1" "old",
      Op.recordEvaluation "1" 80 evalDetailEx])).evaluations
      = (runOps [Op.recordAnswer "1" "old",
          Op.recordEvaluation "1" 80 evalDetailEx]).evaluations ∧
    (recordAnswer "1" "new answer" (runOps [Op.recordAnswer "1" "old",
      Op.recordEvaluation "1" 80 evalDetailEx])).completed
      = (runOps [Op.recordAnswer "1" "old",
          Op.recordEvaluation "1" 80 evalDetailEx]).completed ∧
    (recordAnswer "1" "new answer" (runOps [Op.recordAnswer "1" "old",
      Op.recordEvaluation "1" 80 evalDetailEx])).transcripts
      = (runOps [Op.recordAnswer "1" "old",
          Op.recordEvaluation "1" 80 evalDetailEx]).transcripts ∧
    dlookup "2" (recordAnswer "1" "new answer" (runOps [Op.recordAnswer "1" "old",
      Op.recordEvaluation "1" 80 evalDetailEx])).answers
      = dlookup "2" (runOps [Op.recordAnswer "1" "old",
          Op.recordEvaluation "1" 80 evalDetailEx]).answers ∧
    dlookup "1" (recordAnswer "1" "new answer" (runOps [Op.recordAnswer "1" "old",
      Op.recordEvaluation "1" 80 evalDetailEx])).answers = some "new answer" :=
  record_answer_preserves_evaluation "1" "new answer"
    (runOps [Op.recordAnswer "1" "old", Op.recordEvaluation "1" 80 evalDetailEx])
    "2" (by decide)

/-! ### C9 — determinism of the report builder -/

/-- C9 counterexample: two invocations of the report builder over the
    same progress store differ when the clock has moved — the
    `Generated:` cell embeds `datetime.now()`, so the documents are not
    identical. -/
theorem report_changes_with_clock :
    generate_pdf true "2026-10-12 09:00:00" (recordAnswer "1" "hello" initialProgress)
      ≠ generate_pdf true "2026-10-12 09:00:01" (recordAnswer "1" "hello" initialProgress) := by
  decide

/-- C9 as amended: apart from the generation-timestamp cell (index 1),
    the document is a function of the progress store contents alone —
    the summary counts, average/high/low scores and the per-attempted-
    question blocks are identical across invocations. -/
theorem report_deterministic_modulo_timestamp (cfg : Bool) (now1 now2 : String)
    (p : Progress) :
    (generate_pdf cfg now1 p).eraseIdx 1 = (generate_pdf cfg now2 p).eraseIdx 1 := rfl

/-! ### C10 — the cached evaluation survives a clear -/

theorem isPrefixOf_append_head_ne {a b : Char} (l1 l2 x y : List Char)
    (h : (a == b) = false) :
    ((a :: l1) ++ x).isPrefixOf ((b :: l2) ++ y) = false := by
  simp [List.cons_append, List.isPrefixOf, h]

theorem evaluation_key_not_cleared (q : String) :
    matchesClearPrefix q ("evaluation_" ++ q) = false := by
  have key : ∀ (pre : String) (b : Char) (l2 : List Char), pre.data = b :: l2 →
      (b == 'e') = false → pyStartsWith ("evaluation_" ++ q) (pre ++ q) = false := by
    intro pre b l2 hp hb
    have hs : ("evaluation_" : String).data = 'e' :: "valuation_".data := rfl
    unfold pyStartsWith
    rw [String.data_append, String.data_append, hp, hs]
    exact isPrefixOf_append_head_ne _ _ _ _ hb
  simp only [matchesClearPrefix, clearPrefixes, List.any_cons, List.any_nil, Bool.or_false]
  rw [key "audio_transcript_" 'a' "udio_transcript_".data rfl rfl,
      key "text_answer_" 't' "ext_answer_".data rfl rfl,
      key "last_audio_" 'l' "ast_audio_".data rfl rfl,
      key "audio_input_" 'a' "udio_input_".data rfl rfl,
      key "audio_uploaded_" 'a' "udio_uploaded_".data rfl rfl,
      key "audio_recorder_" 'a' "udio_recorder_".data rfl rfl,
      key "transcript_display_" 't' "ranscript_display_".data rfl rfl,
      key "record_count_" 'r' "ecord_count_".data rfl rfl,
      key "recording_active_" 'r' "ecording_active_".data rfl rfl,
      key "audio_data_" 'a' "udio_data_".data rfl rfl]
  rfl

theorem dlookup_clearSessionKeys (qid k : String)
    (h : matchesClearPrefix qid k = false) (ss : List (String × SVal)) :
    dlookup k (clearSessionKeys qid ss) = dlookup k ss := by
  induction ss with
  | nil => rfl
  | cons kv rest ih =>
    by_cases hk : kv.1 = k
    · have hkv : matchesClearPrefix qid kv.1 = false := by rw [hk]; exact h
      simp [clearSessionKeys, List.filter_cons, hkv, h, dlookup, hk]
    · by_cases hm : matchesClearPrefix qid kv.1
      · simpa [clearSessionKeys, List.filter_cons, hm, dlookup, hk] using ih
      · simpa [clearSessionKeys, List.filter_cons, hm, dlookup, hk] using ih

theorem not_matched_survives_clear (qid : String) (ss : List (String × SVal))
    (kv : String × SVal) (hmem : kv ∈ ss)
    (h : matchesClearPrefix qid kv.1 = false) :
    kv ∈ clearSessionKeys qid ss := by
  simp [clearSessionKeys, List.mem_filter, hmem, h]

/-- C10: `clear_question_data` deletes only session-state keys matching
    one of its ten per-question prefixes; the cached `evaluation_{qid}`
    key matches none of them and survives, and on the next practice
    render the surviving cached detail is copied back into
    `progress['evaluations'][qid]` while the score entry and the
    completed mark stay cleared. -/
theorem cached_evaluation_survives_clear (qid : String) (ss : List (String × SVal))
    (p : Progress) (e : EvalDetail)
    (hcache : dlookup ("evaluation_" ++ qid) ss = some (SVal.evalDetail e)) :
    (clearPrefixes qid).length = 10 ∧
    matchesClearPrefix qid ("evaluation_" ++ qid) = false ∧
    (∀ kv ∈ ss, matchesClearPrefix qid kv.1 = false → kv ∈ clearSessionKeys qid ss) ∧
    dlookup ("evaluation_" ++ qid) (clearSessionKeys qid ss) = some (SVal.evalDetail e) ∧
    dlookup qid (restoreEvaluationOnRender qid (clearSessionKeys qid ss)
      (clearQuestion qid p)).evaluations = some e ∧
    dmem qid (restoreEvaluationOnRender qid (clearSessionKeys qid ss)
      (clearQuestion qid p)).scores = false ∧
    qid ∉ (restoreEvaluationOnRender qid (clearSessionKeys qid ss)
      (clearQuestion qid p)).completed := by
  have hnm := evaluation_key_not_cleared qid
  have hsurv : dlookup ("evaluation_" ++ qid) (clearSessionKeys qid ss)
      = some (SVal.evalDetail e) := by
    rw [dlookup_clearSessionKeys qid _ hnm ss]; exact hcache
  have hnoeval : dmem qid (clearQuestion qid p).evaluations = false :=
    dmem_ddel_self qid p.evaluations
  have hrest : restoreEvaluationOnRender qid (clearSessionKeys qid ss) (clearQuestion qid p)
      = { clearQuestion qid p with
          evaluations := dinsert qid e (clearQuestion qid p).evaluations } := by
    rw [restoreEvaluationOnRender, if_neg (by simp [hnoeval]), hsurv]
  refine ⟨rfl, hnm, fun kv hmem h => not_matched_survives_clear qid ss kv hmem h, hsurv,
    ?_, ?_, ?_⟩
  · rw [hrest]
    exact dlookup_dinsert_self qid e (clearQuestion qid p).evaluations
  · rw [hrest]
    exact dmem_ddel_self qid p.scores
  · rw [hrest]
    simp [clearQuestion, List.mem_filter]

/-- C10 witness: clearing question 3 leaves the cached `evaluation_3`
    session entry in place and the next render restores the detail
    without the score or completed mark. -/
theorem cached_evaluation_survives_clear_witness :
    (clearPrefixes "3").length = 10 ∧
    matchesClearPrefix "3" ("evaluation_" ++ "3") = false ∧
    (∀ kv ∈ [("evaluation_" ++ "3", SVal.evalDetail evalDetailEx),
      ("text_answer_" ++ "3", SVal.str "draft")],
      matchesClearPrefix "3" kv.1 = false →
        kv ∈ clearSessionKeys "3" [("evaluation_" ++ "3", SVal.evalDetail evalDetailEx),
          ("text_answer_" ++ "3", SVal.str "draft")]) ∧
    dlookup ("evaluation_" ++ "3") (clearSessionKeys "3"
      [("evaluation_" ++ "3", SVal.evalDetail evalDetailEx),
       ("text_answer_" ++ "3", SVal.str "draft")]) = some (SVal.evalDetail evalDetailEx) ∧
    dlookup "3" (restoreEvaluationOnRender "3" (clearSessionKeys "3"
      [("evaluation_" ++ "3", SVal.evalDetail evalDetailEx),
       ("text_answer_" ++ "3", SVal.str "draft")])
      (clearQuestion "3" (runOps [Op.recordAnswer "3" "ans",
        Op.recordEvaluation "3" 80 evalDetailEx]))).evaluations = some evalDetailEx ∧
    dmem "3" (restoreEvaluationOnRender "3" (clearSessionKeys "3"
      [("evaluation_" ++ "3", SVal.evalDetail evalDetailEx),
       ("text_answer_" ++ "3", SVal.str "draft")])
      (clearQuestion "3" (runOps [Op.recordAnswer "3" "ans",
        Op.recordEvaluation "3" 80 evalDetailEx]))).scores = false ∧
    "3" ∉ (restoreEvaluationOnRender "3" (clearSessionKeys "3"
      [("evaluation_" ++ "3", SVal.evalDetail evalDetailEx),
       ("text_answer_" ++ "3", SVal.str "draft")])
      (clearQuestion "3" (runOps [Op.recordAnswer "3" "ans",
        Op.recordEvaluation "3" 80 evalDetailEx]))).completed :=
  cached_evaluation_survives_clear "3"
    [("evaluation_" ++ "3", SVal.evalDetail evalDetailEx),
     ("text_answer_" ++ "3", SVal.str "draft")]
    (runOps [Op.recordAnswer "3" "ans", Op.recordEvaluation "3" 80 evalDetailEx])
    evalDetailEx (by decide)

end AIInterview
